import Mathlib

/-!
Verification of the lawn-care data-access layer.

The repository contains two revisions of the data layer:

* `Old` — the `Database` class of `database.py` (dataclass models
  `CustomerModel`, `PropertyModel`, …, per-entity `Signal` objects from
  `util.py`, boolean-returning operations, sqlite accessed through a
  cursor).  All of this code is present in the repository, so the
  definitions below are translated from it directly.  The sqlite schema
  it loads (`static/create_tables.sql`) is not in the repository; the
  constraints it imposes (unique customer email, foreign keys, fresh
  autoincrement row ids) are modelled from the spec where noted.

* `Qy` — the statement-catalog revision (`query.py`, `scripts.py`,
  `schema.py`).  Its execution shim (`database.execute` and the
  process-wide `database.database_updated` signal) is not in the
  repository either; it is modelled from the spec (§4.2) where noted.

Tables are modelled as Lean lists of records in insertion (rowid) order,
which is the order sqlite returns rows of the unordered `SELECT *`
statements used throughout.  Python `float` money amounts are modelled
as `Rat`; every concrete amount appearing in the claims is integral, so
the float arithmetic involved is exact and `Rat` is faithful.  Python
`datetime` values that sqlite's default adapter serialises to ISO text
are modelled by `PyDate`, which records whether the value currently held
by a dataclass field is a `datetime` object or the text read back from
the database.
-/

namespace LawnDB

/-- A Python value that is either a `datetime` object or a `str`.
The payload of `dtObj` is the ISO-8601 text (with a space separator)
that sqlite's default datetime adapter produces when the object is
bound to a statement parameter; `text` is a plain string. -/
inductive PyDate where
  | dtObj (s : String)
  | text (s : String)
deriving Repr, DecidableEq

/-- What sqlite stores for a bound date value: the adapter turns a
`datetime` into its ISO text, a `str` is stored as is. -/
def PyDate.stored : PyDate → String
  | .dtObj s => s
  | .text s => s

/-- Python exceptions that the modelled operations can raise. -/
inductive PyExc where
  | typeError
  | integrityError
  | zeroDivision
deriving Repr, DecidableEq

/-- A Python argument that is either a single `int` or a `list[int]`;
`Database.remove_customer_by_id` and its siblings are declared to take
a `list[int]` but are called with a bare `int` in places. -/
inductive IdsArg where
  | int (n : Int)
  | list (xs : List Int)
deriving Repr, DecidableEq

namespace Old

/-- `database.CustomerModel` (dataclass). -/
structure CustomerModel where
  id : Int
  first_name : String
  last_name : String
  email : String
  phone : String
deriving Repr, DecidableEq

/-- `CustomerModel.is_transient`. -/
def CustomerModel.is_transient (m : CustomerModel) : Bool := m.id == -1

/-- `database.PropertyModel` (dataclass). -/
structure PropertyModel where
  id : Int
  street_number : Int
  unit : String
  street_name : String
  city : String
  post_code : String
deriving Repr, DecidableEq

/-- `PropertyModel.is_transient`. -/
def PropertyModel.is_transient (m : PropertyModel) : Bool := m.id == -1

/-- `database.BookingModel` (dataclass); `when` is a datetime that the
sqlite adapter stores as ISO text. -/
structure BookingModel where
  id : Int
  customer_id : Int
  property_id : Int
  when : PyDate
deriving Repr, DecidableEq

/-- `BookingModel.is_transient`. -/
def BookingModel.is_transient (m : BookingModel) : Bool :=
  m.id == -1 || m.customer_id == -1 || m.property_id == -1

/-- `database.ServiceModel` (dataclass). -/
structure ServiceModel where
  id : Int
  name : String
  base_price : Rat
deriving Repr, DecidableEq

/-- `ServiceModel.is_transient`. -/
def ServiceModel.is_transient (m : ServiceModel) : Bool := m.id == -1

/-- `database.BookingServiceModel` (dataclass): the join row carries no
id of its own in this revision. -/
structure BookingServiceModel where
  booking_id : Int
  service_id : Int
  completed : Bool
deriving Repr, DecidableEq

/-- `BookingServiceModel.is_transient`. -/
def BookingServiceModel.is_transient (m : BookingServiceModel) : Bool :=
  m.booking_id == -1 || m.service_id == -1

/-- `database.PaymentModel` (dataclass). -/
structure PaymentModel where
  id : Int
  booking_id : Int
  amount : Rat
  payment_date : PyDate
deriving Repr, DecidableEq

/-- `PaymentModel.is_transient`. -/
def PaymentModel.is_transient (m : PaymentModel) : Bool :=
  m.id == -1 || m.booking_id == -1

/-- Emission counters for the six per-entity `util.Signal` objects
created in `Database.__init__`.  `Signal.emit` calls every connected
handler once, so a subscriber of a given signal has been invoked
exactly as many times as that signal's counter. -/
structure Signals where
  customers : Nat
  properties : Nat
  bookings : Nat
  services : Nat
  bookingServices : Nat
  payments : Nat
deriving Repr, DecidableEq

/-- The signal state at `Database.__init__`: nothing emitted yet. -/
def Signals.zero : Signals := ⟨0, 0, 0, 0, 0, 0⟩

/-- The state of the sqlite database behind the `Database` class.  The
`next…Id` counters model sqlite's fresh rowid assignment (the id handed
out by the next successful insert). -/
structure Db where
  customers : List CustomerModel
  properties : List PropertyModel
  bookings : List BookingModel
  services : List ServiceModel
  bookingServices : List BookingServiceModel
  payments : List PaymentModel
  nextCustomerId : Int
  nextPropertyId : Int
  nextBookingId : Int
  nextServiceId : Int
  nextPaymentId : Int
  nextBookingServiceRowId : Int
deriving Repr, DecidableEq

/-- The empty database right after `create_tables` (row ids start at 1). -/
def Db.empty : Db := ⟨[], [], [], [], [], [], 1, 1, 1, 1, 1, 1⟩

/-- `Database.add_customer`.  Returns the Python return value, the
(model as mutated), the new database state and the signal state.
Modelled from the spec: the schema file is absent; per §3 the identity
entity's email is unique, so inserting a duplicate email raises
`sqlite3.IntegrityError`, which `add_customer` catches and converts to
`False`. -/
def add_customer (model : CustomerModel) (db : Db) (sg : Signals) :
    Bool × CustomerModel × Db × Signals :=
  if ¬ model.is_transient then (false, model, db, sg)
  else if db.customers.any (fun c => c.email == model.email) then
    (false, model, db, sg)
  else
    let newId := db.nextCustomerId
    let stored : CustomerModel := { model with id := newId }
    let db' := { db with customers := db.customers ++ [stored],
                         nextCustomerId := newId + 1 }
    let success := newId != -1
    (success, stored, db', if success then { sg with customers := sg.customers + 1 } else sg)

/-- `Database.get_customer_by_id`: `fetchone` on `SELECT * FROM Customer
WHERE id = ?` returns the first matching row or `None`. -/
def get_customer_by_id (db : Db) (customer_id : Int) : Option CustomerModel :=
  (db.customers.filter (fun c => c.id == customer_id)).head?

/-- `Database.remove_customer_by_id`.  The Python parameter `ids` is
declared `list[int]` and iterated to build the `?` placeholders; when a
bare `int` is passed instead, `",".join("?" for _ in ids)` raises
`TypeError` before any SQL runs.  Modelled from the spec: bookings hold
a foreign key to their customer (§3), so deleting a customer still
referenced by a booking raises `sqlite3.IntegrityError`, which this
method does not catch. -/
def remove_customer_by_id (ids : IdsArg) (db : Db) (sg : Signals) :
    Except PyExc (Bool × Db × Signals) :=
  match ids with
  | .int _ => .error .typeError
  | .list xs =>
    if db.customers.any (fun c => xs.contains c.id &&
        db.bookings.any (fun b => b.customer_id == c.id)) then
      .error .integrityError
    else
      let remaining := db.customers.filter (fun c => !(xs.contains c.id))
      let success := remaining.length < db.customers.length
      .ok (success, { db with customers := remaining },
           if success then { sg with customers := sg.customers + 1 } else sg)

/-- `Database.remove_customer`: rejects transient models, otherwise
forwards `model.id` — a bare `int`, not a list — to
`remove_customer_by_id` and clears the model's id on success. -/
def remove_customer (model : CustomerModel) (db : Db) (sg : Signals) :
    Except PyExc (Bool × CustomerModel × Db × Signals) :=
  if model.is_transient then .ok (false, model, db, sg)
  else
    match remove_customer_by_id (.int model.id) db sg with
    | .error e => .error e
    | .ok (b, db', sg') =>
        .ok (b, if b then { model with id := -1 } else model, db', sg')

/-- `Database.add_property`.  The spec records no uniqueness constraint
on properties beyond the id, so the insert always succeeds. -/
def add_property (model : PropertyModel) (db : Db) (sg : Signals) :
    Bool × PropertyModel × Db × Signals :=
  if ¬ model.is_transient then (false, model, db, sg)
  else
    let newId := db.nextPropertyId
    let stored : PropertyModel := { model with id := newId }
    let db' := { db with properties := db.properties ++ [stored],
                         nextPropertyId := newId + 1 }
    let success := newId != -1
    (success, stored, db', if success then { sg with properties := sg.properties + 1 } else sg)

/-- `Database.get_property_by_id`. -/
def get_property_by_id (db : Db) (property_id : Int) : Option PropertyModel :=
  (db.properties.filter (fun p => p.id == property_id)).head?

/-- `Database.add_booking`.  Modelled from the spec: the referenced
customer and property must exist (§3 foreign keys, `PRAGMA foreign_keys
= ON` in `Database.__init__`); a violation raises
`sqlite3.IntegrityError`, which `add_booking` catches and converts to
`False`.  The bound `model.when` is stored as its adapter text. -/
def add_booking (model : BookingModel) (db : Db) (sg : Signals) :
    Bool × BookingModel × Db × Signals :=
  if ¬ model.is_transient then (false, model, db, sg)
  else if ¬ (db.customers.any (fun c => c.id == model.customer_id) &&
             db.properties.any (fun p => p.id == model.property_id)) then
    (false, model, db, sg)
  else
    let newId := db.nextBookingId
    let storedRow : BookingModel :=
      { id := newId, customer_id := model.customer_id,
        property_id := model.property_id, when := .text model.when.stored }
    let mutated : BookingModel := { model with id := newId }
    let db' := { db with bookings := db.bookings ++ [storedRow],
                         nextBookingId := newId + 1 }
    let success := newId != -1
    (success, mutated, db', if success then { sg with bookings := sg.bookings + 1 } else sg)

/-- `Database.get_booking_by_id`: rebuilds a `BookingModel` from the raw
row, so `when` comes back as the stored text. -/
def get_booking_by_id (db : Db) (booking_id : Int) : Option BookingModel :=
  (db.bookings.filter (fun b => b.id == booking_id)).head?

/-- `Database.add_service`. -/
def add_service (model : ServiceModel) (db : Db) (sg : Signals) :
    Bool × ServiceModel × Db × Signals :=
  if ¬ model.is_transient then (false, model, db, sg)
  else
    let newId := db.nextServiceId
    let stored : ServiceModel := { model with id := newId }
    let db' := { db with services := db.services ++ [stored],
                         nextServiceId := newId + 1 }
    let success := newId != -1
    (success, stored, db', if success then { sg with services := sg.services + 1 } else sg)

/-- `Database.get_service_by_id`. -/
def get_service_by_id (db : Db) (service_id : Int) : Option ServiceModel :=
  (db.services.filter (fun s => s.id == service_id)).head?

/-- `Database.create_payment`.  Modelled from the spec: payments hold a
foreign key to their booking (§3); a violation raises
`sqlite3.IntegrityError`, caught and converted to `False`.  The bound
`payment_date` is stored as its adapter text. -/
def create_payment (model : PaymentModel) (db : Db) (sg : Signals) :
    Bool × PaymentModel × Db × Signals :=
  if ¬ model.is_transient then (false, model, db, sg)
  else if ¬ db.bookings.any (fun b => b.id == model.booking_id) then
    (false, model, db, sg)
  else
    let newId := db.nextPaymentId
    let storedRow : PaymentModel :=
      { id := newId, booking_id := model.booking_id, amount := model.amount,
        payment_date := .text model.payment_date.stored }
    let mutated : PaymentModel := { model with id := newId }
    let db' := { db with payments := db.payments ++ [storedRow],
                         nextPaymentId := newId + 1 }
    let success := newId != -1
    (success, mutated, db', if success then { sg with payments := sg.payments + 1 } else sg)

/-- `Database.get_payment_by_id`. -/
def get_payment_by_id (db : Db) (payment_id : Int) : Option PaymentModel :=
  (db.payments.filter (fun p => p.id == payment_id)).head?

/-- The `LIMIT ? OFFSET ?` page slice shared by all `get_all_*`
methods: `offset = (page - 1) * page_size` (for `page = 0` the negative
Python offset and sqlite's treatment of a negative `OFFSET` as zero
coincide with truncated `Nat` subtraction). -/
def pageSlice (page page_size : Nat) (rows : List α) : List α :=
  (rows.drop ((page - 1) * page_size)).take page_size

/-- The `(total + page_size - 1) // page_size` page count shared by all
`get_num_*_pages` methods; with `page_size = 0` Python raises
`ZeroDivisionError`, modelled as `none`. -/
def numPages (page_size total : Nat) : Option Nat :=
  if page_size == 0 then none else some ((total + page_size - 1) / page_size)

/-- `Database.get_all_customers`. -/
def get_all_customers (page : Nat) (page_size : Nat) (db : Db) : List CustomerModel :=
  pageSlice page page_size db.customers

/-- `Database.get_num_customer_pages`. -/
def get_num_customer_pages (page_size : Nat) (db : Db) : Option Nat :=
  numPages page_size db.customers.length

/-- `Database.get_all_properties`. -/
def get_all_properties (page : Nat) (page_size : Nat) (db : Db) : List PropertyModel :=
  pageSlice page page_size db.properties

/-- `Database.get_num_property_pages`. -/
def get_num_property_pages (page_size : Nat) (db : Db) : Option Nat :=
  numPages page_size db.properties.length

/-- `Database.get_all_bookings`. -/
def get_all_bookings (page : Nat) (page_size : Nat) (db : Db) : List BookingModel :=
  pageSlice page page_size db.bookings

/-- `Database.get_num_booking_pages`. -/
def get_num_booking_pages (page_size : Nat) (db : Db) : Option Nat :=
  numPages page_size db.bookings.length

/-- `Database.get_all_services`. -/
def get_all_services (page : Nat) (page_size : Nat) (db : Db) : List ServiceModel :=
  pageSlice page page_size db.services

/-- `Database.get_num_service_pages`. -/
def get_num_service_pages (page_size : Nat) (db : Db) : Option Nat :=
  numPages page_size db.services.length

/-- `Database.get_all_booking_services`. -/
def get_all_booking_services (page : Nat) (page_size : Nat) (db : Db) :
    List BookingServiceModel :=
  pageSlice page page_size db.bookingServices

/-- `Database.get_num_booking_service_pages`. -/
def get_num_booking_service_pages (page_size : Nat) (db : Db) : Option Nat :=
  numPages page_size db.bookingServices.length

/-- `Database.get_all_payments`. -/
def get_all_payments (page : Nat) (page_size : Nat) (db : Db) : List PaymentModel :=
  pageSlice page page_size db.payments

/-- `Database.get_num_payment_pages`. -/
def get_num_payment_pages (page_size : Nat) (db : Db) : Option Nat :=
  numPages page_size db.payments.length

/-- `Database.get_booking_service_by_booking_id_and_service_id`:
`fetchone` returns the first row matching the pair, or `None`. -/
def get_booking_service_by_booking_id_and_service_id (db : Db)
    (booking_id service_id : Int) : Option BookingServiceModel :=
  (db.bookingServices.filter
    (fun r => r.booking_id == booking_id && r.service_id == service_id)).head?

/-- `Database.update_booking_service`: `INSERT … ON CONFLICT(booking_id,
service_id) DO UPDATE SET completed = excluded.completed`.  Modelled
from the spec: the pair (booking_id, service_id) is the conflict
target, so the schema keeps it unique and the conflicting row is the
unique row with that pair (the map below touches exactly that row);
on the insert path the foreign keys to Booking and Service must hold or
`sqlite3.IntegrityError` is raised, caught and converted to `False`.
On success (`rowcount > 0`, which holds on both paths) it emits both
`booking_services_changed` and `bookings_changed`. -/
def update_booking_service (model : BookingServiceModel) (db : Db) (sg : Signals) :
    Bool × Db × Signals :=
  if db.bookingServices.any
      (fun r => r.booking_id == model.booking_id && r.service_id == model.service_id) then
    let rows := db.bookingServices.map (fun r =>
      if r.booking_id == model.booking_id && r.service_id == model.service_id then
        { r with completed := model.completed }
      else r)
    (true, { db with bookingServices := rows },
     { sg with bookingServices := sg.bookingServices + 1, bookings := sg.bookings + 1 })
  else if ¬ (db.bookings.any (fun b => b.id == model.booking_id) &&
             db.services.any (fun s => s.id == model.service_id)) then
    (false, db, sg)
  else
    (true, { db with bookingServices := db.bookingServices ++
        [⟨model.booking_id, model.service_id, model.completed⟩] },
     { sg with bookingServices := sg.bookingServices + 1, bookings := sg.bookings + 1 })

/-- `Database.toggle_booking_service_completion`: read the row, flip its
flag, upsert it back; `False` when the pair is absent. -/
def toggle_booking_service_completion (db : Db) (sg : Signals)
    (booking_id service_id : Int) : Bool × Db × Signals :=
  match get_booking_service_by_booking_id_and_service_id db booking_id service_id with
  | some r => update_booking_service { r with completed := !r.completed } db sg
  | none => (false, db, sg)

/-- `Database.booking_get_paid_total_cost`: the statement selects the
two coalesced scalar subquery sums `FROM Booking` with no `WHERE`, so
`fetchone` yields `None` — and the method `(0, 0)` — whenever the
Booking table is empty, and otherwise the pair (paid sum for the given
booking, sum of `base_price` over its `BookingService` rows
left-joined to `Service`).  A join row whose service id matches no
service contributes SQL `NULL`, which `SUM` skips, i.e. `0` below;
`Service.id` is the primary key, so the first matching service is the
only one. -/
def booking_get_paid_total_cost (db : Db) (booking_id : Int) : Rat × Rat :=
  if db.bookings.isEmpty then (0, 0)
  else
    let paid := ((db.payments.filter (fun p => p.booking_id == booking_id)).map
      (fun p => p.amount)).sum
    let cost := ((db.bookingServices.filter (fun r => r.booking_id == booking_id)).map
      (fun r =>
        match (db.services.filter (fun s => s.id == r.service_id)).head? with
        | some s => s.base_price
        | none => 0)).sum
    (paid, cost)

/-- `Database.booking_has_pending_payments`: `paid < total`. -/
def booking_has_pending_payments (db : Db) (booking_id : Int) : Bool :=
  let pt := booking_get_paid_total_cost db booking_id
  decide (pt.1 < pt.2)

end Old

namespace Qy

/-- `schema.Person` (pydantic). -/
structure Person where
  id : Int
  username : String
  first_name : String
  last_name : String
  email : String
  phone_number : String
  is_employee : Bool
  hashed_password : String
deriving Repr, DecidableEq

/-- `schema.Property` (pydantic). -/
structure Property where
  id : Int
  street_address : String
  city : String
  state : String
  post_code : String
deriving Repr, DecidableEq

/-- `schema.Booking` (pydantic); `booking_date` is the ISO text the
application stores (pydantic parses it back to a `date`). -/
structure Booking where
  id : Int
  person_id : Int
  property_id : Int
  booking_date : String
deriving Repr, DecidableEq

/-- `schema.Service` (pydantic): the id is a human-chosen string. -/
structure Service where
  id : String
  description : String
  price : Rat
deriving Repr, DecidableEq

/-- `schema.BookingService` (pydantic). -/
structure BookingService where
  id : Int
  booking_id : Int
  service_id : String
  duration : Int
  completed : Bool
deriving Repr, DecidableEq

/-- `schema.Payment` (pydantic). -/
structure Payment where
  id : Int
  booking_id : Int
  amount : Rat
  payment_date : String
deriving Repr, DecidableEq

/-- `schema.Roster` (pydantic). -/
structure Roster where
  id : Int
  person_id : Int
  booking_service_id : Int
deriving Repr, DecidableEq

/-- `query.Result`: the uniform envelope. -/
structure Result (α : Type) where
  error : Option String
  value : Option (List α)
  lastrowid : Option Int
deriving Repr, DecidableEq

/-- `query.BookingCost` (pydantic row type of `GET_BOOKING_COST`). -/
structure BookingCost where
  total : Rat
deriving Repr, DecidableEq

/-- `query.PaymentTotals` (pydantic row type of
`GET_PAYMENT_TOTALS_BY_BOOKING`). -/
structure PaymentTotals where
  total_amount : Rat
  total_count : Int
deriving Repr, DecidableEq

/-- The sqlite database behind the statement catalog (`CREATE_TABLES`
in `scripts.py`); `next…Id` counters model the `AUTOINCREMENT` ids. -/
structure QDb where
  persons : List Person
  properties : List Property
  bookings : List Booking
  services : List Service
  bookingServices : List BookingService
  payments : List Payment
  rosters : List Roster
  nextPersonId : Int
  nextPropertyId : Int
  nextBookingId : Int
  nextBookingServiceId : Int
  nextPaymentId : Int
  nextRosterId : Int
deriving Repr, DecidableEq

/-- The empty database right after `CREATE_TABLES` (ids start at 1). -/
def QDb.empty : QDb := ⟨[], [], [], [], [], [], [], 1, 1, 1, 1, 1, 1⟩

/-- `LIMIT :limit OFFSET :offset` as sqlite evaluates the two bound
integers: a negative offset reads from the start, a negative limit
means no limit. -/
def sqlPage (offset limit : Int) (rows : List α) : List α :=
  let dropped := rows.drop offset.toNat
  if limit < 0 then dropped else dropped.take limit.toNat

/-- Case-insensitive `LIKE '%query%'` substring match (sqlite's LIKE is
case-insensitive; its ASCII-only folding is approximated by
`String.toLower`). -/
def like (query text : String) : Bool :=
  decide (query.toLower.toList <:+: text.toLower.toList)

/-- `LIKE` against any of a row's searched text columns. -/
def likeAny (query : String) (cols : List String) : Bool :=
  cols.any (fun c => like query c)

/-- Row-to-record mapping of `__execute` for `schema.Person` rows: the
columns feed the pydantic constructor, whose `EmailStr` field is
validated by an external library represented by the `validEmail`
parameter.  A `ValidationError` is caught and returned as
`Result(error=str(e), value=[])`; `list(map(...))` fails as a whole, so
one bad row empties the value. -/
def mapPersons (validEmail : String → Bool) (rows : List Person) : Result Person :=
  if rows.all (fun p => validEmail p.email) then ⟨none, some rows, none⟩
  else ⟨some "validation error", some [], none⟩

/-- Row mapping for record types whose fields are plain
strings/ints/bools/decimals stored by the application itself, where the
pydantic constructors accept every stored row. -/
def mapRows (rows : List α) : Result α :=
  ⟨none, some rows, none⟩

/-- `query.create_person`: runs `CREATE_PERSON` through the shim.
Modelled from the spec (§4.2, the shim itself is not in the
repository): the statement is executed and committed; a uniqueness
violation (`username`/`email UNIQUE` in `CREATE_TABLES`) raises
`sqlite3.IntegrityError`, which the shim catches and converts into the
envelope's error string; on success the envelope carries the new row
id; an `INSERT` returns no rows either way.  The extra `Nat` result is
the statement's affected-row count (spec §4.2 fires the change signal
exactly when it is positive). -/
def create_person (username first_name last_name email phone_number
    hashed_password : String) (db : QDb) : Result Person × QDb × Nat :=
  if db.persons.any (fun p => p.username == username || p.email == email) then
    (⟨some "UNIQUE constraint failed", some [], none⟩, db, 0)
  else
    let newId := db.nextPersonId
    let row : Person :=
      { id := newId, username := username, first_name := first_name,
        last_name := last_name, email := email, phone_number := phone_number,
        is_employee := false, hashed_password := hashed_password }
    (⟨none, some [], some newId⟩,
     { db with persons := db.persons ++ [row], nextPersonId := newId + 1 }, 1)

/-- `query.delete_person`: `DELETE FROM Person WHERE id = :person_id`
through the shim.  Modelled from the spec (§4.2/§7): a foreign-key
violation (a booking or roster row referencing the person) is caught by
the shim and returned as the envelope's error string; otherwise the
matching rows are removed, no rows are returned, and the affected-row
count is reported. -/
def delete_person (db : QDb) (person_id : Int) : Result Unit × QDb × Nat :=
  if (db.persons.any (fun p => p.id == person_id)) &&
     (db.bookings.any (fun b => b.person_id == person_id) ||
      db.rosters.any (fun r => r.person_id == person_id)) then
    (⟨some "FOREIGN KEY constraint failed", some [], none⟩, db, 0)
  else
    let remaining := db.persons.filter (fun p => !(p.id == person_id))
    let affected := db.persons.length - remaining.length
    (⟨none, some [], none⟩, { db with persons := remaining }, affected)

/-- `query.get_person_by_id`. -/
def get_person_by_id (validEmail : String → Bool) (db : QDb) (person_id : Int) :
    Result Person :=
  mapPersons validEmail (db.persons.filter (fun p => p.id == person_id))

/-- `query.login_person`: `SELECT * FROM Person WHERE username =
:username AND hashed_password = :hashed_password`. -/
def login_person (validEmail : String → Bool) (db : QDb)
    (username hashed_password : String) : Result Person :=
  mapPersons validEmail (db.persons.filter
    (fun p => p.username == username && p.hashed_password == hashed_password))

/-- `query.get_person_page`. -/
def get_person_page (validEmail : String → Bool) (db : QDb) (offset limit : Int) :
    Result Person :=
  mapPersons validEmail (sqlPage offset limit db.persons)

/-- `query.search_persons`: falls back to the plain page when the query
string is falsy (empty), otherwise `SEARCH_PERSONS` over the four text
columns. -/
def search_persons (validEmail : String → Bool) (db : QDb)
    (query : String) (offset limit : Int) : Result Person :=
  if query == "" then get_person_page validEmail db offset limit
  else
    mapPersons validEmail (sqlPage offset limit (db.persons.filter
      (fun p => likeAny query [p.first_name, p.last_name, p.email, p.phone_number])))

/-- `query.get_property_page`. -/
def get_property_page (db : QDb) (offset limit : Int) : Result Property :=
  mapRows (sqlPage offset limit db.properties)

/-- `query.search_properties`. -/
def search_properties (db : QDb) (query : String) (offset limit : Int) :
    Result Property :=
  if query == "" then get_property_page db offset limit
  else
    mapRows (sqlPage offset limit (db.properties.filter
      (fun p => likeAny query [p.street_address, p.city, p.state, p.post_code])))

/-- `query.get_booking_page`. -/
def get_booking_page (db : QDb) (offset limit : Int) : Result Booking :=
  mapRows (sqlPage offset limit db.bookings)

/-- `query.search_bookings`: `SEARCH_BOOKINGS` matches the booking date
or any joined person/property text column. -/
def search_bookings (db : QDb) (query : String) (offset limit : Int) :
    Result Booking :=
  if query == "" then get_booking_page db offset limit
  else
    mapRows (sqlPage offset limit (db.bookings.filter (fun b =>
      like query b.booking_date ||
      (db.persons.any (fun p => p.id == b.person_id &&
         likeAny query [p.first_name, p.last_name, p.email, p.phone_number]) ||
       db.properties.any (fun p => p.id == b.property_id &&
         likeAny query [p.street_address, p.city, p.state, p.post_code])))))

/-- `query.get_service_page`. -/
def get_service_page (db : QDb) (offset limit : Int) : Result Service :=
  mapRows (sqlPage offset limit db.services)

/-- `query.search_services`: `SEARCH_SERVICES` also applies `LIKE` to
the numeric price column, which sqlite compares against the price's
text rendering (approximated by `toString`). -/
def search_services (db : QDb) (query : String) (offset limit : Int) :
    Result Service :=
  if query == "" then get_service_page db offset limit
  else
    mapRows (sqlPage offset limit (db.services.filter
      (fun s => likeAny query [s.id, s.description, toString s.price])))

/-- `query.get_service_page_by_booking` (page of `BookingService` rows
for one booking, ordered by the completed flag; `List.filter` keeps
insertion order inside each key and sqlite's `ORDER BY completed ASC`
is stable here, modelled by partitioning). -/
def get_service_page_by_booking (db : QDb) (booking_id : Int) (offset limit : Int) :
    Result BookingService :=
  let rows := db.bookingServices.filter (fun r => r.booking_id == booking_id)
  let ordered := rows.filter (fun r => !r.completed) ++ rows.filter (fun r => r.completed)
  mapRows (sqlPage offset limit ordered)

/-- `query.search_services_by_booking`. -/
def search_services_by_booking (db : QDb) (booking_id : Int)
    (query : String) (offset limit : Int) : Result BookingService :=
  if query == "" then get_service_page_by_booking db booking_id offset limit
  else
    mapRows (sqlPage offset limit (db.bookingServices.filter
      (fun r => r.booking_id == booking_id &&
        likeAny query [r.service_id, toString r.duration])))

/-- `query.get_payment_page`. -/
def get_payment_page (db : QDb) (booking_id : Int) (offset limit : Int) :
    Result Payment :=
  mapRows (sqlPage offset limit
    (db.payments.filter (fun p => p.booking_id == booking_id)))

/-- `query.search_payments`: the `SEARCH_PAYMENTS` statement filters on
`booking_date LIKE :query`, but the Payment table has no such column
(its date column is `payment_date`), so for a non-empty query sqlite
fails to prepare the statement and the shim returns the exception text
on the envelope (spec §4.2). -/
def search_payments (db : QDb) (booking_id : Int)
    (query : String) (offset limit : Int) : Result Payment :=
  if query == "" then get_payment_page db booking_id offset limit
  else ⟨some "no such column: booking_date", some [], none⟩

/-- `query.get_booking_cost`: `GET_BOOKING_COST` sums `Service.price`
over the inner join of the booking's `BookingService` rows with
`Service` (an aggregate select always returns one row; `COALESCE` makes
the empty sum 0). -/
def get_booking_cost (db : QDb) (booking_id : Int) : Result BookingCost :=
  let joined := (db.bookingServices.filter (fun r => r.booking_id == booking_id)).flatMap
    (fun r => (db.services.filter (fun s => s.id == r.service_id)).map
      (fun s => s.price))
  mapRows [⟨joined.sum⟩]

/-- `query.get_payment_totals_by_booking`:
`GET_PAYMENT_TOTALS_BY_BOOKING` returns one row with the coalesced sum
and count of the booking's payments. -/
def get_payment_totals_by_booking (db : QDb) (booking_id : Int) :
    Result PaymentTotals :=
  let rows := db.payments.filter (fun p => p.booking_id == booking_id)
  mapRows [⟨(rows.map (fun p => p.amount)).sum, rows.length⟩]

end Qy

/-! Concrete database states used by witnesses and counterexamples. -/

/-- A customer not yet persisted (transient sentinel id `-1`). -/
def exNewCustomer : Old.CustomerModel :=
  ⟨-1, "Ada", "Lovelace", "ada@example.com", "0400 000 001"⟩

/-- A customer already persisted under id 5. -/
def exSavedCustomer : Old.CustomerModel :=
  ⟨5, "Grace", "Hopper", "grace@example.com", "0400 000 002"⟩

/-- A seeded old-revision database holding one customer and one
property and nothing else. -/
def oldSeedDb : Old.Db :=
  { customers := [⟨1, "Ada", "Lovelace", "ada@example.com", "0400 000 001"⟩]
    properties := [⟨1, 12, "", "Main St", "Springfield", "4000"⟩]
    bookings := []
    services := []
    bookingServices := []
    payments := []
    nextCustomerId := 2, nextPropertyId := 2, nextBookingId := 1
    nextServiceId := 1, nextPaymentId := 1, nextBookingServiceRowId := 1 }

/-- A transient booking for the seeded database, carrying a `datetime`. -/
def exNewBooking : Old.BookingModel :=
  ⟨-1, 1, 1, .dtObj "2024-05-01 09:00:00"⟩

/-- The spec's payment-progress scenario in the old revision: one
booking (id 1) with services priced 50.00 and 30.00 attached and
payments of 20.00 and 25.00 recorded. -/
def oldPayDb : Old.Db :=
  { customers := [⟨1, "Ada", "Lovelace", "ada@example.com", "0400 000 001"⟩]
    properties := [⟨1, 12, "", "Main St", "Springfield", "4000"⟩]
    bookings := [⟨1, 1, 1, .text "2024-05-01 09:00:00"⟩]
    services := [⟨1, "Lawn Mowing", 50⟩, ⟨2, "Hedge Trimming", 30⟩]
    bookingServices := [⟨1, 1, false⟩, ⟨1, 2, false⟩]
    payments := [⟨1, 1, 20, .text "2024-05-02 00:00:00"⟩,
                 ⟨2, 1, 25, .text "2024-05-03 00:00:00"⟩]
    nextCustomerId := 2, nextPropertyId := 2, nextBookingId := 2
    nextServiceId := 3, nextPaymentId := 3, nextBookingServiceRowId := 3 }

/-- `oldPayDb` after the further payment of 35.00. -/
def oldPayDb2 : Old.Db :=
  { oldPayDb with
    payments := oldPayDb.payments ++ [⟨3, 1, 35, .text "2024-05-04 00:00:00"⟩]
    nextPaymentId := 4 }

/-- A stand-in for the external email validator: accepts everything
(the validator is a parameter of the model, not repository code). -/
def anyEmailOk : String → Bool := fun _ => true

/-- The seed admin person of the statement-catalog revision. -/
def qAdmin : Qy.Person :=
  ⟨1, "admin", "Admin", "User", "admin@example.com", "123-456-7890", true, "hash-admin123"⟩

/-- A statement-catalog database holding just the admin person. -/
def qDb1 : Qy.QDb :=
  { Qy.QDb.empty with persons := [qAdmin], nextPersonId := 2 }

/-- The spec's booking-cost scenario in the statement-catalog revision:
booking 1 with a 50.00 service and a 30.00 service attached, and
payments of 20.00 and 25.00 recorded. -/
def qCostDb : Qy.QDb :=
  { persons := [qAdmin]
    properties := [⟨1, "12 Main St", "Springfield", "QLD", "4000"⟩]
    bookings := [⟨1, 1, 1, "2024-05-01"⟩]
    services := [⟨"lawn_mowing", "Lawn Mowing", 50⟩,
                 ⟨"hedge_trimming", "Hedge Trimming", 30⟩]
    bookingServices := [⟨1, 1, "lawn_mowing", 60, false⟩,
                        ⟨2, 1, "hedge_trimming", 45, false⟩]
    payments := [⟨1, 1, 20, "2024-05-02"⟩, ⟨2, 1, 25, "2024-05-03"⟩]
    rosters := []
    nextPersonId := 2, nextPropertyId := 2, nextBookingId := 2
    nextBookingServiceId := 3, nextPaymentId := 3, nextRosterId := 1 }

/-- Spec-level description of the amount paid towards a booking: the
sum of that booking's payment amounts. -/
def Old.paidTowards (db : Old.Db) (booking_id : Int) : Rat :=
  ((db.payments.filter (fun p => p.booking_id == booking_id)).map
    (fun p => p.amount)).sum

/-- Spec-level description of a booking's cost: the sum of the prices
of the services attached to it (an attachment whose service row is
missing contributes nothing). -/
def Old.costOf (db : Old.Db) (booking_id : Int) : Rat :=
  ((db.bookingServices.filter (fun r => r.booking_id == booking_id)).map
    (fun r =>
      match db.services.find? (fun s => s.id == r.service_id) with
      | some s => s.base_price
      | none => 0)).sum

/-- Spec-level description of a booking's cost in the statement-catalog
revision: the sum of the prices of the attached services. -/
def Qy.costOf (db : Qy.QDb) (booking_id : Int) : Rat :=
  ((db.bookingServices.filter (fun r => r.booking_id == booking_id)).map
    (fun r =>
      match db.services.find? (fun s => s.id == r.service_id) with
      | some s => s.price
      | none => 0)).sum

/-- `Database.create_tables`: executes the idempotent
`CREATE TABLE IF NOT EXISTS` script and then emits `customers_changed`
and `properties_changed` unconditionally — whether or not any row was
affected.  Modelled from the spec: the script file
(`static/create_tables.sql`) is absent from the repository; per §6 it
creates the tables idempotently, so the stored rows are untouched. -/
def Old.create_tables (db : Old.Db) (sg : Old.Signals) : Old.Db × Old.Signals :=
  (db, { sg with customers := sg.customers + 1, properties := sg.properties + 1 })

/-- `Database.remove_property_by_id`: same placeholder-join pattern as
`remove_customer_by_id` (a bare `int` raises `TypeError`).  Modelled
from the spec: bookings hold a foreign key to their property (§3), so
deleting a referenced property raises `sqlite3.IntegrityError`,
uncaught here.  Emits `properties_changed` iff rows were affected. -/
def Old.remove_property_by_id (ids : IdsArg) (db : Old.Db) (sg : Old.Signals) :
    Except PyExc (Bool × Old.Db × Old.Signals) :=
  match ids with
  | .int _ => .error .typeError
  | .list xs =>
    if db.properties.any (fun p => xs.contains p.id &&
        db.bookings.any (fun b => b.property_id == p.id)) then
      .error .integrityError
    else
      let remaining := db.properties.filter (fun p => !(xs.contains p.id))
      let success := remaining.length < db.properties.length
      .ok (success, { db with properties := remaining },
           if success then { sg with properties := sg.properties + 1 } else sg)

/-- `Database.remove_booking_by_id`: same pattern.  Modelled from the
spec: booking services and payments hold foreign keys to their booking
(§3), so deleting a referenced booking raises
`sqlite3.IntegrityError`, uncaught here.  Emits `bookings_changed` iff
rows were affected. -/
def Old.remove_booking_by_id (ids : IdsArg) (db : Old.Db) (sg : Old.Signals) :
    Except PyExc (Bool × Old.Db × Old.Signals) :=
  match ids with
  | .int _ => .error .typeError
  | .list xs =>
    if db.bookings.any (fun b => xs.contains b.id &&
        (db.bookingServices.any (fun r => r.booking_id == b.id) ||
         db.payments.any (fun p => p.booking_id == b.id))) then
      .error .integrityError
    else
      let remaining := db.bookings.filter (fun b => !(xs.contains b.id))
      let success := remaining.length < db.bookings.length
      .ok (success, { db with bookings := remaining },
           if success then { sg with bookings := sg.bookings + 1 } else sg)

/-- `Database.remove_service_by_id`: same pattern.  Modelled from the
spec: booking services hold a foreign key to their service (§3).
Emits `services_changed` iff rows were affected. -/
def Old.remove_service_by_id (ids : IdsArg) (db : Old.Db) (sg : Old.Signals) :
    Except PyExc (Bool × Old.Db × Old.Signals) :=
  match ids with
  | .int _ => .error .typeError
  | .list xs =>
    if db.services.any (fun s => xs.contains s.id &&
        db.bookingServices.any (fun r => r.service_id == s.id)) then
      .error .integrityError
    else
      let remaining := db.services.filter (fun s => !(xs.contains s.id))
      let success := remaining.length < db.services.length
      .ok (success, { db with services := remaining },
           if success then { sg with services := sg.services + 1 } else sg)

/-- `Database.remove_payment_by_id`: same pattern; no table references
Payment, so only the bare-`int` `TypeError` can be raised.  Emits
`payments_changed` iff rows were affected. -/
def Old.remove_payment_by_id (ids : IdsArg) (db : Old.Db) (sg : Old.Signals) :
    Except PyExc (Bool × Old.Db × Old.Signals) :=
  match ids with
  | .int _ => .error .typeError
  | .list xs =>
    let remaining := db.payments.filter (fun p => !(xs.contains p.id))
    let success := remaining.length < db.payments.length
    .ok (success, { db with payments := remaining },
         if success then { sg with payments := sg.payments + 1 } else sg)

/-- `Database.remove_booking_service_in_booking`: deletes all
`BookingService` rows of one booking (the parameter is bound as a
proper tuple, so no join bug here) and emits only
`booking_services_changed` — not `bookings_changed` — iff rows were
affected. -/
def Old.remove_booking_service_in_booking (db : Old.Db) (sg : Old.Signals)
    (booking_id : Int) : Bool × Old.Db × Old.Signals :=
  let remaining := db.bookingServices.filter (fun r => !(r.booking_id == booking_id))
  let success := remaining.length < db.bookingServices.length
  (success, { db with bookingServices := remaining },
   if success then { sg with bookingServices := sg.bookingServices + 1 } else sg)

/-- `Database.remove_booking_service_by_booking_service_id`: deletes
the rows matching the (booking_id, service_id) pair and emits only
`booking_services_changed` iff rows were affected. -/
def Old.remove_booking_service_by_booking_service_id (db : Old.Db)
    (sg : Old.Signals) (booking_id service_id : Int) :
    Bool × Old.Db × Old.Signals :=
  let remaining := db.bookingServices.filter
    (fun r => !(r.booking_id == booking_id && r.service_id == service_id))
  let success := remaining.length < db.bookingServices.length
  (success, { db with bookingServices := remaining },
   if success then { sg with bookingServices := sg.bookingServices + 1 } else sg)

/-- `Database.add_booking_service`: rejects *transient* models (the
check is inverted relative to the other adders), inserts the row, then
overwrites `model.booking_id` with `cursor.lastrowid` — the new
BookingService rowid, not the booking id — before computing
`success = model.booking_id != -1 and model.service_id != -1`.
Modelled from the spec: the foreign keys to Booking and Service and the
(booking_id, service_id) uniqueness (the upsert's conflict target)
raise `sqlite3.IntegrityError`, which this method catches (alongside
`sqlite3.DatabaseError`) and converts to `False`.  On success it emits
both `booking_services_changed` and `bookings_changed`. -/
def Old.add_booking_service (model : Old.BookingServiceModel) (db : Old.Db)
    (sg : Old.Signals) : Bool × Old.BookingServiceModel × Old.Db × Old.Signals :=
  if model.is_transient then (false, model, db, sg)
  else if ¬ (db.bookings.any (fun b => b.id == model.booking_id) &&
             db.services.any (fun s => s.id == model.service_id)) then
    (false, model, db, sg)
  else if db.bookingServices.any (fun r => r.booking_id == model.booking_id &&
      r.service_id == model.service_id) then
    (false, model, db, sg)
  else
    let rowid := db.nextBookingServiceRowId
    let stored : Old.BookingServiceModel :=
      ⟨model.booking_id, model.service_id, model.completed⟩
    let mutated : Old.BookingServiceModel := { model with booking_id := rowid }
    let success := rowid != -1 && model.service_id != -1
    (success, mutated,
     { db with bookingServices := db.bookingServices ++ [stored],
               nextBookingServiceRowId := rowid + 1 },
     if success then { sg with bookingServices := sg.bookingServices + 1,
                               bookings := sg.bookings + 1 } else sg)

/-! Helper lemmas. -/

/-- Concatenating the first `k` pages of size `size` takes the first
`k * size` rows. -/
theorem chunk_take {α : Type} (size : Nat) (l : List α) :
    ∀ k : Nat, (List.range k).flatMap (fun i => (l.drop (i * size)).take size)
      = l.take (k * size) := by
  intro k
  induction k with
  | zero => simp
  | succ n ih =>
    rw [List.range_succ, List.flatMap_append, ih]
    simp only [List.flatMap_cons, List.flatMap_nil, List.append_nil]
    rw [Nat.succ_mul, List.take_add]

/-- `len ≤ ceil(len / size) * size` for a positive page size. -/
theorem len_le_ceil (len size : Nat) (h : 0 < size) :
    len ≤ ((len + size - 1) / size) * size := by
  rcases Nat.eq_zero_or_pos len with h0 | h0
  · simp [h0]
  · have h1 : len + size - 1 = (len - 1) + size := by omega
    rw [h1, Nat.add_div_right _ h]
    have h2 := Nat.div_add_mod (len - 1) size
    have h3 := Nat.mod_lt (len - 1) h
    have h4 : (len - 1) / size * size = size * ((len - 1) / size) := Nat.mul_comm _ _
    calc len = (len - 1) + 1 := by omega
    _ ≤ size * ((len - 1) / size) + size := by omega
    _ = (len - 1) / size * size + size := by rw [h4]
    _ = ((len - 1) / size + 1) * size := by ring

/-- Concatenating pages `1 .. ceil(len / size)` of the shared
`pageSlice` recovers the whole table. -/
theorem pageSlice_cover {α : Type} (size : Nat) (l : List α) (h : 0 < size) :
    (List.range ((l.length + size - 1) / size)).flatMap
      (fun i => Old.pageSlice (i + 1) size l) = l := by
  simp only [Old.pageSlice, Nat.add_sub_cancel]
  rw [chunk_take]
  exact List.take_of_length_le (len_le_ceil l.length size h)

/-- `fetchone` after filtering a snoc list whose old rows all fail the
predicate yields the appended row. -/
theorem head?_filter_snoc {α : Type} (p : α → Bool) (l : List α) (a : α)
    (h : ∀ x ∈ l, p x = false) (ha : p a = true) :
    ((l ++ [a]).filter p).head? = some a := by
  rw [List.filter_append]
  have h0 : l.filter p = [] := List.filter_eq_nil_iff.mpr (by
    intro x hx
    simp [h x hx])
  simp [h0, ha]

/-- Filtering for a key that occurs at most once (the mapped keys are
nodup) yields exactly the matching element. -/
theorem filter_eq_singleton_of_key {α β : Type} [DecidableEq β] (key : α → β) :
    ∀ (l : List α) (p : α → Bool) (a : α), (l.map key).Nodup → a ∈ l →
      p a = true → (∀ x, p x = true → key x = key a) → l.filter p = [a] := by
  intro l
  induction l with
  | nil =>
    intro p a _ ha
    cases ha
  | cons b t ih =>
    intro p a hnd hmem hpa hkey
    rw [List.map_cons, List.nodup_cons] at hnd
    obtain ⟨hb, hndt⟩ := hnd
    rcases List.mem_cons.mp hmem with rfl | hat
    · rw [List.filter_cons_of_pos hpa]
      have ht : t.filter p = [] := by
        apply List.filter_eq_nil_iff.mpr
        intro x hx hpx
        exact hb (hkey x hpx ▸ List.mem_map_of_mem key hx)
      rw [ht]
    · have hpb : p b = false := by
        by_contra hc
        have hpb' : p b = true := by simpa using hc
        exact hb (hkey b hpb' ▸ List.mem_map_of_mem key hat)
      rw [List.filter_cons_of_neg (by simp [hpb])]
      exact ih p a hndt hat hpa hkey

/-- In a list whose `Pairwise` keys are distinct, two members with the
same key are the same member. -/
theorem eq_of_key_eq_of_pairwise {α β : Type} (key : α → β) :
    ∀ (l : List α), l.Pairwise (fun x y => key x ≠ key y) →
      ∀ x ∈ l, ∀ y ∈ l, key x = key y → x = y := by
  intro l
  induction l with
  | nil =>
    intro _ x hx
    cases hx
  | cons b t ih =>
    intro hpw x hx y hy hk
    rw [List.pairwise_cons] at hpw
    obtain ⟨hbt, hpwt⟩ := hpw
    rcases List.mem_cons.mp hx with rfl | hxt
    · rcases List.mem_cons.mp hy with rfl | hyt
      · rfl
      · exact absurd hk (hbt y hyt)
    · rcases List.mem_cons.mp hy with rfl | hyt
      · exact absurd hk.symm (hbt x hxt)
      · exact ih hpwt x hxt y hyt hk

/-- Summing a flat-mapped list equals summing the per-element sums. -/
theorem sum_flatMap {α : Type} (l : List α) (f : α → List Rat) :
    (l.flatMap f).sum = (l.map (fun x => (f x).sum)).sum := by
  induction l with
  | nil => simp
  | cons a t ih => simp [List.flatMap_cons, List.sum_append, ih]

/-- `fetchone` on a filter is `find?`. -/
theorem head?_filter_eq_find? {α : Type} (p : α → Bool) (l : List α) :
    (l.filter p).head? = l.find? p := by
  induction l with
  | nil => simp
  | cons a t ih =>
    cases hpa : p a with
    | true => simp [List.filter_cons, List.find?_cons, hpa]
    | false => simp [List.filter_cons, List.find?_cons, hpa, ih]

/-- Setting the completed flag of the unique row with `r0`'s pair to
`!r0.completed` and then back to `r0.completed` restores the table. -/
theorem map_toggle_twice (l : List Old.BookingServiceModel)
    (r0 : Old.BookingServiceModel)
    (huniq : ∀ x ∈ l,
      (x.booking_id == r0.booking_id && x.service_id == r0.service_id) = true →
      x = r0) :
    (l.map (fun r =>
        if r.booking_id == r0.booking_id && r.service_id == r0.service_id
        then { r with completed := !r0.completed } else r)).map
      (fun r =>
        if r.booking_id == r0.booking_id && r.service_id == r0.service_id
        then { r with completed := r0.completed } else r) = l := by
  rw [List.map_map]
  have h : ∀ x ∈ l,
      ((fun r : Old.BookingServiceModel =>
        if r.booking_id == r0.booking_id && r.service_id == r0.service_id
        then { r with completed := r0.completed } else r) ∘
       (fun r : Old.BookingServiceModel =>
        if r.booking_id == r0.booking_id && r.service_id == r0.service_id
        then { r with completed := !r0.completed } else r)) x = id x := by
    intro x hx
    cases hcond : (x.booking_id == r0.booking_id && x.service_id == r0.service_id) with
    | true =>
      have hx0 : x = r0 := huniq x hx hcond
      subst hx0
      simp [Function.comp]
    | false =>
      simp [Function.comp, hcond]
  rw [List.map_congr_left h, List.map_id]

/-! Claim C1. -/

/-- Claim C1 (code bug): the failure policy says no data-access
operation ever propagates an exception, but `Database.remove_customer`
forwards `model.id` — a bare `int` — to `remove_customer_by_id`, whose
`",".join("?" for _ in ids)` iterates over its argument; iterating an
`int` raises `TypeError`, which nothing catches, so every call on a
non-transient customer model propagates the exception to the caller
(`remove_payment`, which passes `[model.id]`, shows the intended
pattern). -/
theorem c1_remove_customer_raises (m : Old.CustomerModel) (db : Old.Db)
    (sg : Old.Signals) (h : m.is_transient = false) :
    Old.remove_customer m db sg = .error .typeError := by
  simp [Old.remove_customer, h, Old.remove_customer_by_id]

/-- Claim C1 witness: removing the persisted customer with id 5 from
the empty database raises `TypeError`. -/
theorem c1_remove_customer_raises_witness :
    Old.remove_customer exSavedCustomer Old.Db.empty Old.Signals.zero
      = .error .typeError :=
  c1_remove_customer_raises exSavedCustomer Old.Db.empty Old.Signals.zero (by decide)

/-! Claim C2. -/

/-- Claim C2 counterexample: creating a transient booking whose `when`
is a `datetime` and reading it back by the assigned id yields a record
whose `when` is the ISO text sqlite stored, not the `datetime` that was
input — the record differs from the input in the date field as well,
not only in the id. -/
theorem c2_booking_date_counterexample :
    (Old.add_booking exNewBooking oldSeedDb Old.Signals.zero).1 = true ∧
    Old.get_booking_by_id
        (Old.add_booking exNewBooking oldSeedDb Old.Signals.zero).2.2.1 1
      = some ⟨1, 1, 1, .text "2024-05-01 09:00:00"⟩ ∧
    (⟨1, 1, 1, .text "2024-05-01 09:00:00"⟩ : Old.BookingModel)
      ≠ { exNewBooking with id := 1 } := by
  refine ⟨rfl, rfl, by decide⟩

/-- Claim C2 (amended): creating a record with the transient sentinel
id `-1` and reading it back by the assigned id yields the input fields
with the new id for the entities whose fields are plain ints and
strings — Customer, Property and Service of the `Database` revision,
and Person of the statement-catalog revision (whose `is_employee`
defaults to false) — while for Booking and Payment the `datetime` field
is read back as the ISO text the adapter stored, so equality holds only
after date normalisation. -/
theorem c2_create_read_roundtrip :
    (∀ (m : Old.CustomerModel) (db : Old.Db) (sg : Old.Signals),
        m.id = -1 →
        (∀ c ∈ db.customers, c.email ≠ m.email) →
        (∀ c ∈ db.customers, c.id ≠ db.nextCustomerId) →
        db.nextCustomerId ≠ -1 →
        (Old.add_customer m db sg).1 = true ∧
        Old.get_customer_by_id (Old.add_customer m db sg).2.2.1 db.nextCustomerId
          = some { m with id := db.nextCustomerId }) ∧
    (∀ (m : Old.PropertyModel) (db : Old.Db) (sg : Old.Signals),
        m.id = -1 →
        (∀ p ∈ db.properties, p.id ≠ db.nextPropertyId) →
        db.nextPropertyId ≠ -1 →
        (Old.add_property m db sg).1 = true ∧
        Old.get_property_by_id (Old.add_property m db sg).2.2.1 db.nextPropertyId
          = some { m with id := db.nextPropertyId }) ∧
    (∀ (m : Old.ServiceModel) (db : Old.Db) (sg : Old.Signals),
        m.id = -1 →
        (∀ s ∈ db.services, s.id ≠ db.nextServiceId) →
        db.nextServiceId ≠ -1 →
        (Old.add_service m db sg).1 = true ∧
        Old.get_service_by_id (Old.add_service m db sg).2.2.1 db.nextServiceId
          = some { m with id := db.nextServiceId }) ∧
    (∀ (m : Old.BookingModel) (db : Old.Db) (sg : Old.Signals),
        m.id = -1 →
        (∃ c ∈ db.customers, c.id = m.customer_id) →
        (∃ p ∈ db.properties, p.id = m.property_id) →
        (∀ b ∈ db.bookings, b.id ≠ db.nextBookingId) →
        db.nextBookingId ≠ -1 →
        (Old.add_booking m db sg).1 = true ∧
        Old.get_booking_by_id (Old.add_booking m db sg).2.2.1 db.nextBookingId
          = some ⟨db.nextBookingId, m.customer_id, m.property_id,
                  .text m.when.stored⟩) ∧
    (∀ (m : Old.PaymentModel) (db : Old.Db) (sg : Old.Signals),
        m.id = -1 →
        (∃ b ∈ db.bookings, b.id = m.booking_id) →
        (∀ p ∈ db.payments, p.id ≠ db.nextPaymentId) →
        db.nextPaymentId ≠ -1 →
        (Old.create_payment m db sg).1 = true ∧
        Old.get_payment_by_id (Old.create_payment m db sg).2.2.1 db.nextPaymentId
          = some ⟨db.nextPaymentId, m.booking_id, m.amount,
                  .text m.payment_date.stored⟩) ∧
    (∀ (validEmail : String → Bool)
        (username first_name last_name email phone_number hashed_password : String)
        (db : Qy.QDb),
        (∀ p ∈ db.persons, p.username ≠ username ∧ p.email ≠ email) →
        (∀ p ∈ db.persons, p.id ≠ db.nextPersonId) →
        validEmail email = true →
        (Qy.create_person username first_name last_name email phone_number
            hashed_password db).1
          = ⟨none, some [], some db.nextPersonId⟩ ∧
        Qy.get_person_by_id validEmail
            (Qy.create_person username first_name last_name email phone_number
              hashed_password db).2.1 db.nextPersonId
          = ⟨none, some [⟨db.nextPersonId, username, first_name, last_name,
              email, phone_number, false, hashed_password⟩], none⟩) := by
  refine ⟨?_, ?_, ?_, ?_, ?_, ?_⟩
  · intro m db sg h1 h2 h3 h4
    have htr : m.is_transient = true := by
      simp [Old.CustomerModel.is_transient, h1]
    have hany : (db.customers.any fun c => c.email == m.email) = false := by
      simp only [List.any_eq_false]
      intro c hc
      simp [h2 c hc]
    constructor
    · simp [Old.add_customer, htr, hany, bne_iff_ne, h4]
    · have hdb : (Old.add_customer m db sg).2.2.1
          = { db with customers := db.customers ++ [{ m with id := db.nextCustomerId }],
                      nextCustomerId := db.nextCustomerId + 1 } := by
        simp [Old.add_customer, htr, hany]
      rw [hdb]
      apply head?_filter_snoc
      · intro x hx
        simp [h3 x hx]
      · simp
  · intro m db sg h1 h3 h4
    have htr : m.is_transient = true := by
      simp [Old.PropertyModel.is_transient, h1]
    constructor
    · simp [Old.add_property, htr, bne_iff_ne, h4]
    · have hdb : (Old.add_property m db sg).2.2.1
          = { db with properties := db.properties ++ [{ m with id := db.nextPropertyId }],
                      nextPropertyId := db.nextPropertyId + 1 } := by
        simp [Old.add_property, htr]
      rw [hdb]
      apply head?_filter_snoc
      · intro x hx
        simp [h3 x hx]
      · simp
  · intro m db sg h1 h3 h4
    have htr : m.is_transient = true := by
      simp [Old.ServiceModel.is_transient, h1]
    constructor
    · simp [Old.add_service, htr, bne_iff_ne, h4]
    · have hdb : (Old.add_service m db sg).2.2.1
          = { db with services := db.services ++ [{ m with id := db.nextServiceId }],
                      nextServiceId := db.nextServiceId + 1 } := by
        simp [Old.add_service, htr]
      rw [hdb]
      apply head?_filter_snoc
      · intro x hx
        simp [h3 x hx]
      · simp
  · intro m db sg h1 hcust hprop h3 h4
    have htr : m.is_transient = true := by
      simp [Old.BookingModel.is_transient, h1]
    have hcustB : (db.customers.any fun c => c.id == m.customer_id) = true := by
      simp only [List.any_eq_true]
      obtain ⟨c, hc, hcid⟩ := hcust
      exact ⟨c, hc, by simp [hcid]⟩
    have hpropB : (db.properties.any fun p => p.id == m.property_id) = true := by
      simp only [List.any_eq_true]
      obtain ⟨p, hp, hpid⟩ := hprop
      exact ⟨p, hp, by simp [hpid]⟩
    constructor
    · simp [Old.add_booking, htr, hcustB, hpropB, bne_iff_ne, h4]
    · have hdb : (Old.add_booking m db sg).2.2.1
          = { db with bookings := db.bookings ++
                [⟨db.nextBookingId, m.customer_id, m.property_id, .text m.when.stored⟩],
                      nextBookingId := db.nextBookingId + 1 } := by
        simp [Old.add_booking, htr, hcustB, hpropB]
      rw [hdb]
      apply head?_filter_snoc
      · intro x hx
        simp [h3 x hx]
      · simp
  · intro m db sg h1 hbook h3 h4
    have htr : m.is_transient = true := by
      simp [Old.PaymentModel.is_transient, h1]
    have hbookB : (db.bookings.any fun b => b.id == m.booking_id) = true := by
      simp only [List.any_eq_true]
      obtain ⟨b, hb, hbid⟩ := hbook
      exact ⟨b, hb, by simp [hbid]⟩
    constructor
    · simp [Old.create_payment, htr, hbookB, bne_iff_ne, h4]
    · have hdb : (Old.create_payment m db sg).2.2.1
          = { db with payments := db.payments ++
                [⟨db.nextPaymentId, m.booking_id, m.amount, .text m.payment_date.stored⟩],
                      nextPaymentId := db.nextPaymentId + 1 } := by
        simp [Old.create_payment, htr, hbookB]
      rw [hdb]
      apply head?_filter_snoc
      · intro x hx
        simp [h3 x hx]
      · simp
  · intro validEmail username first_name last_name email phone_number hashed_password
      db h1 h2 h3
    have hany : (db.persons.any fun p =>
        p.username == username || p.email == email) = false := by
      simp only [List.any_eq_false]
      intro p hp
      simp [(h1 p hp).1, (h1 p hp).2]
    constructor
    · simp [Qy.create_person, hany]
    · have hdb : (Qy.create_person username first_name last_name email phone_number
          hashed_password db).2.1
          = { db with persons := db.persons ++
                [⟨db.nextPersonId, username, first_name, last_name, email,
                  phone_number, false, hashed_password⟩],
                      nextPersonId := db.nextPersonId + 1 } := by
        simp [Qy.create_person, hany]
      rw [hdb]
      have hfilter : List.filter (fun p : Qy.Person => p.id == db.nextPersonId)
          (db.persons ++ [(⟨db.nextPersonId, username, first_name, last_name,
            email, phone_number, false, hashed_password⟩ : Qy.Person)])
          = [(⟨db.nextPersonId, username, first_name, last_name, email,
              phone_number, false, hashed_password⟩ : Qy.Person)] := by
        rw [List.filter_append]
        have h0 : db.persons.filter (fun p : Qy.Person => p.id == db.nextPersonId)
            = [] := by
          apply List.filter_eq_nil_iff.mpr
          intro p hp
          simp [h2 p hp]
        rw [h0]
        simp
      simp only [Qy.get_person_by_id]
      rw [hfilter]
      simp [Qy.mapPersons, h3]

/-- Claim C2 witness: creating a fresh customer in the empty database
succeeds and reading id 1 back returns the input fields with id 1. -/
theorem c2_create_read_roundtrip_witness :
    (Old.add_customer exNewCustomer Old.Db.empty Old.Signals.zero).1 = true ∧
    Old.get_customer_by_id
        (Old.add_customer exNewCustomer Old.Db.empty Old.Signals.zero).2.2.1 1
      = some { exNewCustomer with id := 1 } := by
  have h := c2_create_read_roundtrip.1 exNewCustomer Old.Db.empty Old.Signals.zero
    rfl (by intro c hc; cases hc) (by intro c hc; cases hc) (by decide)
  exact h

/-! Claim C3. -/

/-- Claim C3 counterexample: deleting the absent customer id 5 from the
empty database affects zero rows and nothing goes wrong, yet
`Database.remove_customer_by_id` returns `False` — under its own
contract ("True if successful, False otherwise") the outcome *is*
reported as a failure, contrary to the claim. -/
theorem c3_delete_missing_counterexample :
    Old.remove_customer_by_id (.list [5]) Old.Db.empty Old.Signals.zero
      = .ok (false, Old.Db.empty, Old.Signals.zero) := by
  rfl

/-- Claim C3 (amended): deleting a non-existent id affects zero rows
and leaves the database and the change signals unchanged; the
envelope-based `query.delete_person` reports no error, while the
boolean `Database.remove_customer_by_id` reports failure (`False`). -/
theorem c3_delete_missing_id :
    (∀ (db : Qy.QDb) (person_id : Int), (∀ p ∈ db.persons, p.id ≠ person_id) →
       Qy.delete_person db person_id = (⟨none, some [], none⟩, db, 0)) ∧
    (∀ (db : Old.Db) (sg : Old.Signals) (ids : List Int),
       (∀ c ∈ db.customers, c.id ∉ ids) →
       Old.remove_customer_by_id (.list ids) db sg = .ok (false, db, sg)) := by
  constructor
  · intro db person_id h
    have hany : db.persons.any (fun p => p.id == person_id) = false := by
      simp only [List.any_eq_false]
      intro p hp
      simp [h p hp]
    have hfilter : db.persons.filter (fun p => !(p.id == person_id)) = db.persons := by
      apply List.filter_eq_self.mpr
      intro p hp
      simp [h p hp]
    simp [Qy.delete_person, hany, hfilter]
  · intro db sg ids h
    have hfk : db.customers.any (fun c => ids.contains c.id &&
        db.bookings.any (fun b => b.customer_id == c.id)) = false := by
      simp only [List.any_eq_false]
      intro c hc
      simp [h c hc]
    have hfilter : db.customers.filter (fun c => !(ids.contains c.id)) = db.customers := by
      apply List.filter_eq_self.mpr
      intro c hc
      simp [h c hc]
    simp only [Old.remove_customer_by_id, hfk, hfilter]
    simp

/-- Claim C3 witness: deleting the absent person id 99 from the
admin-only database returns an errorless empty envelope, zero affected
rows, and the unchanged database. -/
theorem c3_delete_missing_id_witness :
    Qy.delete_person qDb1 99 = (⟨none, some [], none⟩, qDb1, 0) :=
  c3_delete_missing_id.1 qDb1 99 (by decide)

/-! Claim C4. -/

/-- Claim C4 counterexample: logging in as `admin` with a wrong
password yields an envelope whose error is `None` and whose value is
the empty list — failure is signalled by the empty value, not by an
error as the claim states. -/
theorem c4_login_wrong_password_counterexample :
    (Qy.login_person anyEmailOk qDb1 "admin" "wrong").error = none ∧
    (Qy.login_person anyEmailOk qDb1 "admin" "wrong").value = some [] := by
  exact ⟨rfl, rfl⟩

/-- Claim C4 (amended): logging in with a stored person's username and
that person's stored password hash returns exactly that person (the
username column is unique); with a hash matching no stored credentials
the envelope carries the empty row list and no error — the caller
detects the failed login from the empty value. -/
theorem c4_login :
    (∀ (validEmail : String → Bool) (db : Qy.QDb)
        (username hashed_password : String) (p : Qy.Person),
        p ∈ db.persons → p.username = username →
        p.hashed_password = hashed_password →
        (db.persons.map Qy.Person.username).Nodup →
        validEmail p.email = true →
        Qy.login_person validEmail db username hashed_password
          = ⟨none, some [p], none⟩) ∧
    (∀ (validEmail : String → Bool) (db : Qy.QDb)
        (username hashed_password : String),
        (∀ p ∈ db.persons,
          ¬ (p.username = username ∧ p.hashed_password = hashed_password)) →
        Qy.login_person validEmail db username hashed_password
          = ⟨none, some [], none⟩) := by
  constructor
  · intro validEmail db username hashed_password p hp hu hh hnd hv
    have hfilter : db.persons.filter
        (fun q => q.username == username && q.hashed_password == hashed_password)
        = [p] := by
      apply filter_eq_singleton_of_key Qy.Person.username db.persons _ p hnd hp
      · simp [hu, hh]
      · intro x hx
        simp only [Bool.and_eq_true, beq_iff_eq] at hx
        rw [hx.1, hu]
    simp [Qy.login_person, hfilter, Qy.mapPersons, hv]
  · intro validEmail db username hashed_password h
    have hfilter : db.persons.filter
        (fun q => q.username == username && q.hashed_password == hashed_password)
        = [] := by
      apply List.filter_eq_nil_iff.mpr
      intro q hq hcontra
      simp only [Bool.and_eq_true, beq_iff_eq] at hcontra
      exact h q hq hcontra
    simp [Qy.login_person, hfilter, Qy.mapPersons]

/-- Claim C4 witness: logging in as `admin` with the admin's stored
hash returns exactly the admin person. -/
theorem c4_login_witness :
    Qy.login_person anyEmailOk qDb1 "admin" "hash-admin123"
      = ⟨none, some [qAdmin], none⟩ :=
  c4_login.1 anyEmailOk qDb1 "admin" "hash-admin123" qAdmin
    (by decide) rfl rfl (by decide) rfl

/-! Claim C5. -/

/-- Claim C5 (confirmed): the payment-totals query returns the sum and
count of the booking's payments; the pending check compares paid
strictly below cost (the sum of the booking's services' prices),
provided the Booking table is non-empty (its statement selects `FROM
Booking` without a `WHERE`, so an empty table yields `(0, 0)`); and on
the spec's scenario — cost 80.00, payments 20.00 and 25.00 — totals are
45.00/80.00 with pending true, and after a 35.00 payment 80.00/80.00
with pending false. -/
theorem c5_payment_totals_pending :
    (∀ (db : Qy.QDb) (booking_id : Int),
        Qy.get_payment_totals_by_booking db booking_id
          = ⟨none, some [⟨((db.payments.filter
                (fun p => p.booking_id == booking_id)).map
                  (fun p => p.amount)).sum,
              (db.payments.filter
                (fun p => p.booking_id == booking_id)).length⟩], none⟩) ∧
    (∀ (db : Old.Db) (booking_id : Int), db.bookings ≠ [] →
        Old.booking_get_paid_total_cost db booking_id
          = (Old.paidTowards db booking_id, Old.costOf db booking_id) ∧
        (Old.booking_has_pending_payments db booking_id = true ↔
          Old.paidTowards db booking_id < Old.costOf db booking_id)) ∧
    (Old.booking_get_paid_total_cost oldPayDb 1 = (45, 80) ∧
      Old.booking_has_pending_payments oldPayDb 1 = true) ∧
    (Old.booking_get_paid_total_cost oldPayDb2 1 = (80, 80) ∧
      Old.booking_has_pending_payments oldPayDb2 1 = false) ∧
    Qy.get_payment_totals_by_booking qCostDb 1 = ⟨none, some [⟨45, 2⟩], none⟩ := by
  refine ⟨?_, ?_, ?_, ?_, ?_⟩
  · intro db booking_id
    rfl
  · intro db booking_id hne
    have hbe : db.bookings.isEmpty = false := by
      cases h : db.bookings with
      | nil => exact absurd h hne
      | cons x xs => rfl
    have hpair : Old.booking_get_paid_total_cost db booking_id
        = (Old.paidTowards db booking_id, Old.costOf db booking_id) := by
      simp [Old.booking_get_paid_total_cost, hbe, Old.paidTowards, Old.costOf,
        head?_filter_eq_find?]
    refine ⟨hpair, ?_⟩
    simp [Old.booking_has_pending_payments, hpair, decide_eq_true_iff]
  · constructor
    · show Old.booking_get_paid_total_cost oldPayDb 1 = (45, 80)
      simp [Old.booking_get_paid_total_cost, oldPayDb]
      norm_num
    · show Old.booking_has_pending_payments oldPayDb 1 = true
      simp [Old.booking_has_pending_payments, Old.booking_get_paid_total_cost, oldPayDb]
      norm_num
  · constructor
    · show Old.booking_get_paid_total_cost oldPayDb2 1 = (80, 80)
      simp [Old.booking_get_paid_total_cost, oldPayDb2, oldPayDb]
      norm_num
    · show Old.booking_has_pending_payments oldPayDb2 1 = false
      simp [Old.booking_has_pending_payments, Old.booking_get_paid_total_cost, oldPayDb2, oldPayDb]
      norm_num
  · show Qy.get_payment_totals_by_booking qCostDb 1 = ⟨none, some [⟨45, 2⟩], none⟩
    simp [Qy.get_payment_totals_by_booking, Qy.mapRows, qCostDb]
    norm_num

/-- Claim C5 witness: on the scenario database (whose Booking table is
non-empty) the paid/cost pair is exactly (total paid, total cost). -/
theorem c5_payment_totals_pending_witness :
    Old.booking_get_paid_total_cost oldPayDb 1
      = (Old.paidTowards oldPayDb 1, Old.costOf oldPayDb 1) :=
  (c5_payment_totals_pending.2.1 oldPayDb 1 (by decide)).1

/-! Claim C6. -/

/-- Claim C6 (confirmed): the booking-cost query returns one errorless
row holding the sum of the prices of the services attached to the
booking (0 with none attached; service ids are the primary key, hence
nodup); on the spec's scenario with services priced 50.00 and 30.00
attached, the cost is 80.00. -/
theorem c6_booking_cost :
    (∀ (db : Qy.QDb) (booking_id : Int),
        (db.services.map Qy.Service.id).Nodup →
        Qy.get_booking_cost db booking_id
          = ⟨none, some [⟨Qy.costOf db booking_id⟩], none⟩) ∧
    Qy.get_booking_cost qCostDb 1 = ⟨none, some [⟨80⟩], none⟩ := by
  constructor
  · intro db booking_id hnd
    have hper : ∀ sid : String,
        ((db.services.filter (fun s => s.id == sid)).map (fun s => s.price)).sum
          = (match db.services.find? (fun s => s.id == sid) with
             | some s => s.price
             | none => 0) := by
      intro sid
      cases hfind : db.services.find? (fun s => s.id == sid) with
      | none =>
        have hnil : db.services.filter (fun s => s.id == sid) = [] := by
          apply List.filter_eq_nil_iff.mpr
          intro x hx
          have hx' := List.find?_eq_none.mp hfind x hx
          simpa using hx'
        simp [hnil]
      | some s =>
        have hs1 : s ∈ db.services := List.mem_of_find?_eq_some hfind
        have hs2 := List.find?_some hfind
        have hfil : db.services.filter (fun x => x.id == sid) = [s] := by
          apply filter_eq_singleton_of_key Qy.Service.id db.services _ s hnd hs1 hs2
          intro x hx
          have hx' : x.id = sid := by simpa using hx
          have hs' : s.id = sid := by simpa using hs2
          rw [hx', hs']
        simp [hfil]
    simp only [Qy.get_booking_cost, Qy.mapRows, Qy.costOf]
    rw [sum_flatMap]
    have hmap : (db.bookingServices.filter
        (fun r => r.booking_id == booking_id)).map
          (fun r => ((db.services.filter
            (fun s => s.id == r.service_id)).map (fun s => s.price)).sum)
        = (db.bookingServices.filter (fun r => r.booking_id == booking_id)).map
          (fun r => match db.services.find? (fun s => s.id == r.service_id) with
                    | some s => s.price
                    | none => 0) :=
      List.map_congr_left (fun r _ => hper r.service_id)
    rw [hmap]
  · show Qy.get_booking_cost qCostDb 1 = ⟨none, some [⟨80⟩], none⟩
    simp [Qy.get_booking_cost, Qy.mapRows, qCostDb]
    norm_num

/-- Claim C6 witness: applied to the scenario database (whose service
ids are nodup), the cost query returns the attached-services sum. -/
theorem c6_booking_cost_witness :
    Qy.get_booking_cost qCostDb 1 = ⟨none, some [⟨Qy.costOf qCostDb 1⟩], none⟩ :=
  c6_booking_cost.1 qCostDb 1 (by decide)

/-! Claim C7. -/

/-- Claim C7 (confirmed): every search function, called with the empty
query string, returns exactly the plain paginated listing at the same
offset and limit — `search_*` returns the `get_*_page` call itself on
the falsy-query branch. -/
theorem c7_empty_search_is_page :
    ∀ (validEmail : String → Bool) (db : Qy.QDb) (booking_id offset limit : Int),
      Qy.search_persons validEmail db "" offset limit
          = Qy.get_person_page validEmail db offset limit ∧
      Qy.search_properties db "" offset limit = Qy.get_property_page db offset limit ∧
      Qy.search_bookings db "" offset limit = Qy.get_booking_page db offset limit ∧
      Qy.search_services db "" offset limit = Qy.get_service_page db offset limit ∧
      Qy.search_services_by_booking db booking_id "" offset limit
          = Qy.get_service_page_by_booking db booking_id offset limit ∧
      Qy.search_payments db booking_id "" offset limit
          = Qy.get_payment_page db booking_id offset limit := by
  intro validEmail db booking_id offset limit
  exact ⟨rfl, rfl, rfl, rfl, rfl, rfl⟩

/-! Claim C8. -/

/-- Claim C8 counterexample: with an empty Customer table the total row
count is 0, and using it as the page size makes
`Database.get_num_customer_pages` divide by zero (`ZeroDivisionError`,
modelled as `none`), so no page count is reported at all at that
input. -/
theorem c8_zero_page_size_counterexample :
    Old.Db.empty.customers.length = 0 ∧
    Old.get_num_customer_pages 0 Old.Db.empty = none := by
  exact ⟨rfl, rfl⟩

/-- Claim C8 (amended): for every positive page size — in particular 1,
10, and the total row count whenever the table is non-empty —
concatenating pages 1 through the reported page count yields exactly
the full table, for every paginated listing; with page size 0 (the
total row count of an empty table) the page count computation raises
`ZeroDivisionError` instead. -/
theorem c8_pagination_cover (db : Old.Db) (size : Nat) (h : 0 < size) :
    (Old.get_num_customer_pages size db
        = some ((db.customers.length + size - 1) / size) ∧
      (List.range ((db.customers.length + size - 1) / size)).flatMap
        (fun i => Old.get_all_customers (i + 1) size db) = db.customers) ∧
    (Old.get_num_property_pages size db
        = some ((db.properties.length + size - 1) / size) ∧
      (List.range ((db.properties.length + size - 1) / size)).flatMap
        (fun i => Old.get_all_properties (i + 1) size db) = db.properties) ∧
    (Old.get_num_booking_pages size db
        = some ((db.bookings.length + size - 1) / size) ∧
      (List.range ((db.bookings.length + size - 1) / size)).flatMap
        (fun i => Old.get_all_bookings (i + 1) size db) = db.bookings) ∧
    (Old.get_num_service_pages size db
        = some ((db.services.length + size - 1) / size) ∧
      (List.range ((db.services.length + size - 1) / size)).flatMap
        (fun i => Old.get_all_services (i + 1) size db) = db.services) ∧
    (Old.get_num_booking_service_pages size db
        = some ((db.bookingServices.length + size - 1) / size) ∧
      (List.range ((db.bookingServices.length + size - 1) / size)).flatMap
        (fun i => Old.get_all_booking_services (i + 1) size db)
          = db.bookingServices) ∧
    (Old.get_num_payment_pages size db
        = some ((db.payments.length + size - 1) / size) ∧
      (List.range ((db.payments.length + size - 1) / size)).flatMap
        (fun i => Old.get_all_payments (i + 1) size db) = db.payments) := by
  have hz : (size == 0) = false := by simp [Nat.pos_iff_ne_zero.mp h]
  refine ⟨⟨?_, ?_⟩, ⟨?_, ?_⟩, ⟨?_, ?_⟩, ⟨?_, ?_⟩, ⟨?_, ?_⟩, ⟨?_, ?_⟩⟩
  · simp [Old.get_num_customer_pages, Old.numPages, hz]
  · exact pageSlice_cover size db.customers h
  · simp [Old.get_num_property_pages, Old.numPages, hz]
  · exact pageSlice_cover size db.properties h
  · simp [Old.get_num_booking_pages, Old.numPages, hz]
  · exact pageSlice_cover size db.bookings h
  · simp [Old.get_num_service_pages, Old.numPages, hz]
  · exact pageSlice_cover size db.services h
  · simp [Old.get_num_booking_service_pages, Old.numPages, hz]
  · exact pageSlice_cover size db.bookingServices h
  · simp [Old.get_num_payment_pages, Old.numPages, hz]
  · exact pageSlice_cover size db.payments h

/-- Claim C8 witness: at page size 10 the scenario database reports one
page of customers, and that single page is the whole table. -/
theorem c8_pagination_cover_witness :
    Old.get_num_customer_pages 10 oldPayDb = some 1 ∧
    (List.range 1).flatMap (fun i => Old.get_all_customers (i + 1) 10 oldPayDb)
      = oldPayDb.customers := by
  have h := (c8_pagination_cover oldPayDb 10 (by decide)).1
  exact ⟨h.1, h.2⟩

/-! Claim C9. -/

/-- Claim C9 counterexample: the revision in the repository has no
single process-wide signal: after the successful mutating
`add_customer` statement only the `customers_changed` subscribers are
notified (counter 1) while `properties_changed` subscribers — also
subscribers of the change notification — are never invoked
(counter 0), so the emission does not reach every subscriber. -/
theorem c9_single_signal_counterexample :
    (Old.add_customer exNewCustomer Old.Db.empty Old.Signals.zero).1 = true ∧
    (Old.add_customer exNewCustomer Old.Db.empty Old.Signals.zero).2.2.2.customers = 1 ∧
    (Old.add_customer exNewCustomer Old.Db.empty Old.Signals.zero).2.2.2.properties = 0 := by
  exact ⟨rfl, rfl, rfl⟩

/-- Claim C9 (amended): the revision in the repository keeps one change
signal per entity and has no single process-wide signal.  The emitted
signals of every mutating operation are characterised exactly: inserts
and deletes of customers, properties, bookings, services and payments
emit one notification on their own entity's signal when the operation
reports success and nothing at all otherwise (failure or zero affected
rows); booking-service insert, upsert and toggle emit
`booking_services_changed` and `bookings_changed` together on success
and nothing otherwise; booking-service deletes emit only
`booking_services_changed`; and `create_tables` emits
`customers_changed` and `properties_changed` unconditionally. -/
theorem c9_per_entity_signals :
    (∀ (m : Old.CustomerModel) (db : Old.Db) (sg : Old.Signals),
        (Old.add_customer m db sg).2.2.2
          = if (Old.add_customer m db sg).1
            then { sg with customers := sg.customers + 1 } else sg) ∧
    (∀ (m : Old.PropertyModel) (db : Old.Db) (sg : Old.Signals),
        (Old.add_property m db sg).2.2.2
          = if (Old.add_property m db sg).1
            then { sg with properties := sg.properties + 1 } else sg) ∧
    (∀ (m : Old.BookingModel) (db : Old.Db) (sg : Old.Signals),
        (Old.add_booking m db sg).2.2.2
          = if (Old.add_booking m db sg).1
            then { sg with bookings := sg.bookings + 1 } else sg) ∧
    (∀ (m : Old.ServiceModel) (db : Old.Db) (sg : Old.Signals),
        (Old.add_service m db sg).2.2.2
          = if (Old.add_service m db sg).1
            then { sg with services := sg.services + 1 } else sg) ∧
    (∀ (m : Old.PaymentModel) (db : Old.Db) (sg : Old.Signals),
        (Old.create_payment m db sg).2.2.2
          = if (Old.create_payment m db sg).1
            then { sg with payments := sg.payments + 1 } else sg) ∧
    (∀ (m : Old.BookingServiceModel) (db : Old.Db) (sg : Old.Signals),
        (Old.add_booking_service m db sg).2.2.2
          = if (Old.add_booking_service m db sg).1
            then { sg with bookingServices := sg.bookingServices + 1,
                           bookings := sg.bookings + 1 } else sg) ∧
    (∀ (m : Old.BookingServiceModel) (db : Old.Db) (sg : Old.Signals),
        (Old.update_booking_service m db sg).2.2
          = if (Old.update_booking_service m db sg).1
            then { sg with bookingServices := sg.bookingServices + 1,
                           bookings := sg.bookings + 1 } else sg) ∧
    (∀ (db : Old.Db) (sg : Old.Signals) (b s : Int),
        (Old.toggle_booking_service_completion db sg b s).2.2
          = if (Old.toggle_booking_service_completion db sg b s).1
            then { sg with bookingServices := sg.bookingServices + 1,
                           bookings := sg.bookings + 1 } else sg) ∧
    (∀ (ids : List Int) (db : Old.Db) (sg : Old.Signals) (b : Bool)
        (db' : Old.Db) (sg' : Old.Signals),
        Old.remove_customer_by_id (.list ids) db sg = .ok (b, db', sg') →
        sg' = if b then { sg with customers := sg.customers + 1 } else sg) ∧
    (∀ (ids : List Int) (db : Old.Db) (sg : Old.Signals) (b : Bool)
        (db' : Old.Db) (sg' : Old.Signals),
        Old.remove_property_by_id (.list ids) db sg = .ok (b, db', sg') →
        sg' = if b then { sg with properties := sg.properties + 1 } else sg) ∧
    (∀ (ids : List Int) (db : Old.Db) (sg : Old.Signals) (b : Bool)
        (db' : Old.Db) (sg' : Old.Signals),
        Old.remove_booking_by_id (.list ids) db sg = .ok (b, db', sg') →
        sg' = if b then { sg with bookings := sg.bookings + 1 } else sg) ∧
    (∀ (ids : List Int) (db : Old.Db) (sg : Old.Signals) (b : Bool)
        (db' : Old.Db) (sg' : Old.Signals),
        Old.remove_service_by_id (.list ids) db sg = .ok (b, db', sg') →
        sg' = if b then { sg with services := sg.services + 1 } else sg) ∧
    (∀ (ids : List Int) (db : Old.Db) (sg : Old.Signals) (b : Bool)
        (db' : Old.Db) (sg' : Old.Signals),
        Old.remove_payment_by_id (.list ids) db sg = .ok (b, db', sg') →
        sg' = if b then { sg with payments := sg.payments + 1 } else sg) ∧
    (∀ (db : Old.Db) (sg : Old.Signals) (booking_id : Int),
        (Old.remove_booking_service_in_booking db sg booking_id).2.2
          = if (Old.remove_booking_service_in_booking db sg booking_id).1
            then { sg with bookingServices := sg.bookingServices + 1 } else sg) ∧
    (∀ (db : Old.Db) (sg : Old.Signals) (booking_id service_id : Int),
        (Old.remove_booking_service_by_booking_service_id db sg
            booking_id service_id).2.2
          = if (Old.remove_booking_service_by_booking_service_id db sg
                booking_id service_id).1
            then { sg with bookingServices := sg.bookingServices + 1 } else sg) ∧
    (∀ (db : Old.Db) (sg : Old.Signals),
        Old.create_tables db sg
          = (db, { sg with customers := sg.customers + 1,
                           properties := sg.properties + 1 })) := by
  have hupd : ∀ (m : Old.BookingServiceModel) (db : Old.Db) (sg : Old.Signals),
      (Old.update_booking_service m db sg).2.2
        = if (Old.update_booking_service m db sg).1
          then { sg with bookingServices := sg.bookingServices + 1,
                         bookings := sg.bookings + 1 } else sg := by
    intro m db sg
    unfold Old.update_booking_service
    split
    · simp
    · split
      · simp
      · simp
  refine ⟨?_, ?_, ?_, ?_, ?_, ?_, hupd, ?_, ?_, ?_, ?_, ?_, ?_, ?_, ?_, ?_⟩
  · intro m db sg
    unfold Old.add_customer
    split
    · simp
    · split
      · simp
      · simp
  · intro m db sg
    unfold Old.add_property
    split
    · simp
    · simp
  · intro m db sg
    unfold Old.add_booking
    split
    · simp
    · split
      · simp
      · simp
  · intro m db sg
    unfold Old.add_service
    split
    · simp
    · simp
  · intro m db sg
    unfold Old.create_payment
    split
    · simp
    · split
      · simp
      · simp
  · intro m db sg
    unfold Old.add_booking_service
    split
    · simp
    · split
      · simp
      · split
        · simp
        · simp
  · intro db sg b s
    unfold Old.toggle_booking_service_completion
    split
    · exact hupd _ _ _
    · simp
  · intro ids db sg b db' sg' hok
    simp only [Old.remove_customer_by_id] at hok
    split at hok
    · cases hok
    · simp only [Except.ok.injEq, Prod.mk.injEq] at hok
      obtain ⟨h1, _, h3⟩ := hok
      subst h1
      rw [← h3]
      by_cases hc : ((db.customers.filter (fun c => !(ids.contains c.id))).length
          < db.customers.length)
      · simp [hc]
      · simp [hc]
  · intro ids db sg b db' sg' hok
    simp only [Old.remove_property_by_id] at hok
    split at hok
    · cases hok
    · simp only [Except.ok.injEq, Prod.mk.injEq] at hok
      obtain ⟨h1, _, h3⟩ := hok
      subst h1
      rw [← h3]
      by_cases hc : ((db.properties.filter (fun p => !(ids.contains p.id))).length
          < db.properties.length)
      · simp [hc]
      · simp [hc]
  · intro ids db sg b db' sg' hok
    simp only [Old.remove_booking_by_id] at hok
    split at hok
    · cases hok
    · simp only [Except.ok.injEq, Prod.mk.injEq] at hok
      obtain ⟨h1, _, h3⟩ := hok
      subst h1
      rw [← h3]
      by_cases hc : ((db.bookings.filter (fun x => !(ids.contains x.id))).length
          < db.bookings.length)
      · simp [hc]
      · simp [hc]
  · intro ids db sg b db' sg' hok
    simp only [Old.remove_service_by_id] at hok
    split at hok
    · cases hok
    · simp only [Except.ok.injEq, Prod.mk.injEq] at hok
      obtain ⟨h1, _, h3⟩ := hok
      subst h1
      rw [← h3]
      by_cases hc : ((db.services.filter (fun x => !(ids.contains x.id))).length
          < db.services.length)
      · simp [hc]
      · simp [hc]
  · intro ids db sg b db' sg' hok
    simp only [Old.remove_payment_by_id] at hok
    simp only [Except.ok.injEq, Prod.mk.injEq] at hok
    obtain ⟨h1, _, h3⟩ := hok
    subst h1
    rw [← h3]
    by_cases hc : ((db.payments.filter (fun x => !(ids.contains x.id))).length
        < db.payments.length)
    · simp [hc]
    · simp [hc]
  · intro db sg booking_id
    simp [Old.remove_booking_service_in_booking]
  · intro db sg booking_id service_id
    simp [Old.remove_booking_service_by_booking_service_id]
  · intro db sg
    rfl

/-- Claim C9 witness: deleting customer id 1 from the seeded database
(one customer, no bookings) succeeds, and the theorem pins its signal
state to exactly one `customers_changed` emission. -/
theorem c9_per_entity_signals_witness :
    Old.remove_customer_by_id (.list [1]) oldSeedDb Old.Signals.zero
      = .ok (true, { oldSeedDb with customers := [] },
             { Old.Signals.zero with customers := 1 }) ∧
    { Old.Signals.zero with customers := 1 }
      = if true
        then { Old.Signals.zero with
               customers := Old.Signals.zero.customers + 1 }
        else Old.Signals.zero := by
  have hrem : Old.remove_customer_by_id (.list [1]) oldSeedDb Old.Signals.zero
      = .ok (true, { oldSeedDb with customers := [] },
             { Old.Signals.zero with customers := 1 }) := by rfl
  exact ⟨hrem, c9_per_entity_signals.2.2.2.2.2.2.2.2.1 [1] oldSeedDb
    Old.Signals.zero true { oldSeedDb with customers := [] }
    { Old.Signals.zero with customers := 1 } hrem⟩

/-! Claim C10. -/

/-- Claim C10 (confirmed): when the (booking_id, service_id) pair is
present (the pair is unique — it is the upsert's conflict target),
toggling twice succeeds both times and returns the database to its
original state; when the pair is absent a single call returns `False`
and changes nothing. -/
theorem c10_toggle_involution :
    (∀ (db : Old.Db) (sg : Old.Signals) (b s : Int)
        (r0 : Old.BookingServiceModel),
        db.bookingServices.Pairwise
          (fun x y => x.booking_id ≠ y.booking_id ∨ x.service_id ≠ y.service_id) →
        Old.get_booking_service_by_booking_id_and_service_id db b s = some r0 →
        (Old.toggle_booking_service_completion db sg b s).1 = true ∧
        (Old.toggle_booking_service_completion
            (Old.toggle_booking_service_completion db sg b s).2.1
            (Old.toggle_booking_service_completion db sg b s).2.2 b s).1 = true ∧
        (Old.toggle_booking_service_completion
            (Old.toggle_booking_service_completion db sg b s).2.1
            (Old.toggle_booking_service_completion db sg b s).2.2 b s).2.1 = db) ∧
    (∀ (db : Old.Db) (sg : Old.Signals) (b s : Int),
        Old.get_booking_service_by_booking_id_and_service_id db b s = none →
        Old.toggle_booking_service_completion db sg b s = (false, db, sg)) := by
  constructor
  · intro db sg b s r0 hnd hget
    have hfh : (db.bookingServices.filter
        (fun r => r.booking_id == b && r.service_id == s)).head? = some r0 := hget
    have hmemf : r0 ∈ db.bookingServices.filter
        (fun r => r.booking_id == b && r.service_id == s) := by
      cases hfl : db.bookingServices.filter
          (fun r => r.booking_id == b && r.service_id == s) with
      | nil =>
        rw [hfl] at hfh
        cases hfh
      | cons x xs =>
        rw [hfl] at hfh
        simp only [List.head?_cons, Option.some.injEq] at hfh
        exact hfh ▸ List.mem_cons_self x xs
    obtain ⟨hr0l, hp⟩ := List.mem_filter.mp hmemf
    simp only [Bool.and_eq_true, beq_iff_eq] at hp
    obtain ⟨hb, hs⟩ := hp
    subst hb
    subst hs
    have hnd' : db.bookingServices.Pairwise
        (fun x y => (x.booking_id, x.service_id) ≠ (y.booking_id, y.service_id)) := by
      refine hnd.imp ?_
      intro x y hxy heq
      rw [Prod.mk.injEq] at heq
      rcases hxy with h | h
      · exact h heq.1
      · exact h heq.2
    have huniq : ∀ x ∈ db.bookingServices,
        (x.booking_id == r0.booking_id && x.service_id == r0.service_id) = true →
        x = r0 := by
      intro x hxl hpx
      simp only [Bool.and_eq_true, beq_iff_eq] at hpx
      exact eq_of_key_eq_of_pairwise (fun r => (r.booking_id, r.service_id))
        db.bookingServices hnd' x hxl r0 hr0l (by simp [hpx.1, hpx.2])
    have hany1 : (db.bookingServices.any
        (fun r => r.booking_id == r0.booking_id && r.service_id == r0.service_id))
        = true := by
      simp only [List.any_eq_true]
      exact ⟨r0, hr0l, by simp⟩
    have ht1 : Old.toggle_booking_service_completion db sg
        r0.booking_id r0.service_id
        = (true,
           { db with bookingServices :=
               db.bookingServices.map (fun r => if r.booking_id == r0.booking_id && r.service_id == r0.service_id then { r with completed := !r0.completed } else r) },
           { sg with bookingServices := sg.bookingServices + 1,
                     bookings := sg.bookings + 1 }) := by
      unfold Old.toggle_booking_service_completion
      rw [hget]
      unfold Old.update_booking_service
      dsimp only
      rw [if_pos hany1]
    have hget2 : Old.get_booking_service_by_booking_id_and_service_id
        { db with bookingServices :=
            db.bookingServices.map (fun r => if r.booking_id == r0.booking_id && r.service_id == r0.service_id then { r with completed := !r0.completed } else r) }
        r0.booking_id r0.service_id
        = some { r0 with completed := !r0.completed } := by
      unfold Old.get_booking_service_by_booking_id_and_service_id
      rw [List.filter_map]
      have hPf : ∀ a ∈ db.bookingServices,
          ((fun r : Old.BookingServiceModel =>
              r.booking_id == r0.booking_id && r.service_id == r0.service_id) ∘
            (fun r : Old.BookingServiceModel =>
              if r.booking_id == r0.booking_id && r.service_id == r0.service_id
              then { r with completed := !r0.completed } else r)) a
          = (a.booking_id == r0.booking_id && a.service_id == r0.service_id) := by
        intro a _
        cases hcond : (a.booking_id == r0.booking_id &&
            a.service_id == r0.service_id) with
        | true => simp [Function.comp, hcond]
        | false => simp [Function.comp, hcond]
      rw [List.filter_congr hPf, List.head?_map, hfh]
      simp
    have ht2 : Old.toggle_booking_service_completion
        { db with bookingServices :=
            db.bookingServices.map (fun r => if r.booking_id == r0.booking_id && r.service_id == r0.service_id then { r with completed := !r0.completed } else r) }
        { sg with bookingServices := sg.bookingServices + 1,
                  bookings := sg.bookings + 1 }
        r0.booking_id r0.service_id
        = (true, db,
           { sg with bookingServices := sg.bookingServices + 1 + 1,
                     bookings := sg.bookings + 1 + 1 }) := by
      unfold Old.toggle_booking_service_completion
      rw [hget2]
      have hany2 : ((db.bookingServices.map
          (fun r =>
            if r.booking_id == r0.booking_id && r.service_id == r0.service_id
            then { r with completed := !r0.completed } else r)).any
          (fun r => r.booking_id == r0.booking_id && r.service_id == r0.service_id))
          = true := by
        simp only [List.any_eq_true]
        refine ⟨{ r0 with completed := !r0.completed },
          List.mem_map.mpr ⟨r0, hr0l, by simp⟩, by simp⟩
      have h2 := map_toggle_twice db.bookingServices r0 huniq
      unfold Old.update_booking_service
      dsimp only
      simp only [Bool.not_not]
      rw [if_pos hany2, h2]
    refine ⟨?_, ?_, ?_⟩
    · simp only [ht1]
    · simp only [ht1]
      rw [ht2]
    · simp only [ht1]
      rw [ht2]
  · intro db sg b s hget
    unfold Old.toggle_booking_service_completion
    rw [hget]

/-- Claim C10 witness: toggling the attached pair (1, 1) of the
scenario database twice restores it; its pairs are distinct. -/
theorem c10_toggle_involution_witness :
    (Old.toggle_booking_service_completion oldPayDb Old.Signals.zero 1 1).1 = true ∧
    (Old.toggle_booking_service_completion
        (Old.toggle_booking_service_completion oldPayDb Old.Signals.zero 1 1).2.1
        (Old.toggle_booking_service_completion oldPayDb Old.Signals.zero 1 1).2.2
        1 1).1 = true ∧
    (Old.toggle_booking_service_completion
        (Old.toggle_booking_service_completion oldPayDb Old.Signals.zero 1 1).2.1
        (Old.toggle_booking_service_completion oldPayDb Old.Signals.zero 1 1).2.2
        1 1).2.1 = oldPayDb :=
  c10_toggle_involution.1 oldPayDb Old.Signals.zero 1 1 ⟨1, 1, false⟩
    (by decide) (by decide)

end LawnDB
